import Mathlib

/-!
Shallow embedding of the porometGUI analysis route (the Next.js handler
`POST /api/analyze` and its helper `mockPoreAnalysis`).

JavaScript numbers are modelled as real numbers.  Each call to
`Math.random()` is modelled by reading the next element of an explicit
draw stream `draws : ℕ → ℝ`; the source calls `Math.random()` once per
histogram bin (indices 0..79, in loop order), then once for `pixel_size`
(index 80), once for `pore_fraction` (index 81) and once for
`total_pores` (index 82).  `Math.random()` guarantees a value in `[0, 1)`,
captured by the predicate `ValidDraws`.  `Date.now()` is modelled by an
explicit `now : ℕ` parameter (it only feeds the `output_dir` string).
-/

namespace Poromet

/-- Result record returned by `mockPoreAnalysis`: the fields of the JSON
object built at the end of the function.  `histogram_data` is the list of
`(diameter, pdf)` pairs. -/
structure AnalysisResult where
  avg_diam_nm : ℝ
  mode_diam_nm : ℝ
  histogram_data : List (ℝ × ℝ)
  output_dir : ℕ
  pixel_size : ℝ
  pore_fraction : ℝ
  total_pores : ℤ

/-- Contract of `Math.random()`: every draw lies in `[0, 1)`. -/
def ValidDraws (draws : ℕ → ℝ) : Prop := ∀ i, 0 ≤ draws i ∧ draws i < 1

/-- Source: `const baseSize = 20 + (magnification / 100) * 10`. -/
noncomputable def baseSize (magnification : ℝ) : ℝ :=
  20 + magnification / 100 * 10

/-- Source: `const diameter = 5 + i * (maxDiamNm / 80)` (loop body, bin `i`). -/
noncomputable def binDiameter (maxDiamNm : ℝ) (i : ℕ) : ℝ :=
  5 + (i : ℝ) * (maxDiamNm / 80)

/-- Source: the `pdf` computed for bin `i`:
`Math.exp(-Math.pow((diameter - baseSize) / (baseSize * 0.4), 2)) * (0.6 + Math.random() * 0.8) * threshMag`. -/
noncomputable def binPdf (magnification maxDiamNm threshMag : ℝ) (draws : ℕ → ℝ)
    (i : ℕ) : ℝ :=
  Real.exp (-(((binDiameter maxDiamNm i - baseSize magnification) /
      (baseSize magnification * 0.4)) ^ 2)) * (0.6 + draws i * 0.8) * threshMag

/-- Source: `histogram_data.reduce((maxIdx, d, idx, arr) => (d.pdf > arr[maxIdx].pdf ? idx : maxIdx), 0)`.
Since `histogram_data[j].pdf` is `f j` for every `j < n` and every index the
fold touches is `< n` (or the initial `0`), the array reduce is the fold over
indices below `n` of the same comparison. -/
noncomputable def argmaxUpto (f : ℕ → ℝ) (n : ℕ) : ℕ :=
  (List.range n).foldl (fun maxIdx idx => if f idx > f maxIdx then idx else maxIdx) 0

/-- Embedding of `mockPoreAnalysis(imageBuffer, magnification, maxDiamNm, threshMag)`
from `app/api/analyze/route.ts`.  The image buffer is a parameter, exactly as in
the source, where it is never read. -/
noncomputable def mockPoreAnalysis (imageBuffer : List ℕ)
    (magnification maxDiamNm threshMag : ℝ) (draws : ℕ → ℝ) (now : ℕ) :
    AnalysisResult :=
  let histogram_data := (List.range 80).map fun i =>
    (binDiameter maxDiamNm i, binPdf magnification maxDiamNm threshMag draws i)
  let totalPdf := (histogram_data.map fun d => d.2).sum
  let avgDiam := ((histogram_data.map fun d => d.1 * d.2).sum) / totalPdf
  let maxPdfIndex := argmaxUpto (binPdf magnification maxDiamNm threshMag draws) 80
  let modeDiam := binDiameter maxDiamNm maxPdfIndex
  { avg_diam_nm := avgDiam
    mode_diam_nm := modeDiam
    histogram_data := histogram_data
    output_dir := now
    pixel_size := 0.1 + draws 80 * 0.1
    pore_fraction := 0.1 + draws 81 * 0.3
    total_pores := Int.floor (500 + draws 82 * 1500) }

/-- Form fields the `POST` handler reads: the uploaded file (absent when
`formData.get("file")` is null) and the three parsed numeric parameters
(`magnification` via `Number.parseInt`, hence an integer). -/
structure UploadForm where
  file : Option (List ℕ)
  magnification : ℤ
  max_diam_nm : ℝ
  thresh_mag : ℝ

/-- Responses the `POST` handler can produce: the 400 "no file" rejection, or
the 200 JSON body carrying the analysis result.  The handler has no other
validation branch. -/
inductive PostResponse where
  | missingFile : PostResponse
  | ok : AnalysisResult → PostResponse

/-- Embedding of the `POST` handler of `app/api/analyze/route.ts`: reject when
no file was provided, otherwise run `mockPoreAnalysis` on the buffer and the
parsed parameters and return its result. -/
noncomputable def POST (form : UploadForm) (draws : ℕ → ℝ) (now : ℕ) :
    PostResponse :=
  match form.file with
  | none => PostResponse.missingFile
  | some buffer =>
      PostResponse.ok (mockPoreAnalysis buffer (form.magnification : ℝ)
        form.max_diam_nm form.thresh_mag draws now)

/-- Unfolding lemma for the histogram field. -/
lemma mock_histogram_data (b : List ℕ) (m maxD t : ℝ) (d : ℕ → ℝ) (now : ℕ) :
    (mockPoreAnalysis b m maxD t d now).histogram_data =
      (List.range 80).map fun i => (binDiameter maxD i, binPdf m maxD t d i) :=
  rfl

/-- Unfolding lemma for the mode field. -/
lemma mock_mode_diam (b : List ℕ) (m maxD t : ℝ) (d : ℕ → ℝ) (now : ℕ) :
    (mockPoreAnalysis b m maxD t d now).mode_diam_nm =
      binDiameter maxD (argmaxUpto (binPdf m maxD t d) 80) :=
  rfl

/-- Unfolding lemma for the pixel size field. -/
lemma mock_pixel_size (b : List ℕ) (m maxD t : ℝ) (d : ℕ → ℝ) (now : ℕ) :
    (mockPoreAnalysis b m maxD t d now).pixel_size = 0.1 + d 80 * 0.1 :=
  rfl

/-- Unfolding lemma for the pore fraction field. -/
lemma mock_pore_fraction (b : List ℕ) (m maxD t : ℝ) (d : ℕ → ℝ) (now : ℕ) :
    (mockPoreAnalysis b m maxD t d now).pore_fraction = 0.1 + d 81 * 0.3 :=
  rfl

/-- Unfolding lemma for the pore count field. -/
lemma mock_total_pores (b : List ℕ) (m maxD t : ℝ) (d : ℕ → ℝ) (now : ℕ) :
    (mockPoreAnalysis b m maxD t d now).total_pores =
      Int.floor ((500 : ℝ) + d 82 * 1500) :=
  rfl

/-- Unfolding of the index fold over `0, …, n`. -/
lemma argmaxUpto_succ (f : ℕ → ℝ) (n : ℕ) :
    argmaxUpto f (n + 1) =
      if f n > f (argmaxUpto f n) then n else argmaxUpto f n := by
  unfold argmaxUpto
  rw [List.range_succ, List.foldl_append]
  rfl

/-- The reduce in the source keeps the first index attaining the running
maximum: the final index is in range, its value dominates every scanned
value, and every strictly earlier index has a strictly smaller value. -/
lemma argmaxUpto_spec (f : ℕ → ℝ) (n : ℕ) (hn : 0 < n) :
    argmaxUpto f n < n ∧
      (∀ i, i < n → f i ≤ f (argmaxUpto f n)) ∧
      (∀ i, i < argmaxUpto f n → f i < f (argmaxUpto f n)) := by
  induction n with
  | zero => exact absurd hn (lt_irrefl 0)
  | succ n ih =>
    rcases Nat.eq_zero_or_pos n with h0 | hpos
    · subst h0
      have h1 : argmaxUpto f 1 = 0 := by
        rw [argmaxUpto_succ]
        simp [argmaxUpto, lt_irrefl]
      rw [h1]
      refine ⟨Nat.zero_lt_one, ?_, ?_⟩
      · intro i hi
        interval_cases i
        exact le_refl _
      · intro i hi
        exact absurd hi (Nat.not_lt_zero i)
    · obtain ⟨hk, hle, hfirst⟩ := ih hpos
      rw [argmaxUpto_succ]
      by_cases h : f n > f (argmaxUpto f n)
      · rw [if_pos h]
        refine ⟨Nat.lt_succ_self n, ?_, ?_⟩
        · intro i hi
          rcases Nat.lt_succ_iff_lt_or_eq.mp hi with hi' | hi'
          · exact le_of_lt (lt_of_le_of_lt (hle i hi') h)
          · subst hi'; exact le_refl _
        · intro i hi
          exact lt_of_le_of_lt (hle i hi) h
      · rw [if_neg h]
        refine ⟨Nat.lt_succ_of_lt hk, ?_, hfirst⟩
        intro i hi
        rcases Nat.lt_succ_iff_lt_or_eq.mp hi with hi' | hi'
        · exact hle i hi'
        · subst hi'; exact le_of_not_lt h

/-- The bin diameters increase strictly with the bin index when the maximum
diameter parameter is positive. -/
lemma binDiameter_strict_mono (maxD : ℝ) (hmax : 0 < maxD) {i j : ℕ}
    (hij : i < j) : binDiameter maxD i < binDiameter maxD j := by
  unfold binDiameter
  have hc : 0 < maxD / 80 := by positivity
  have hij' : (i : ℝ) < (j : ℝ) := by exact_mod_cast hij
  nlinarith

/-- C10: the image buffer is never read by the analysis, so any two buffers
with the same parameters, draws and timestamp give identical results. -/
theorem buffer_has_no_influence (b1 b2 : List ℕ) (m maxD t : ℝ) (d : ℕ → ℝ)
    (now : ℕ) :
    mockPoreAnalysis b1 m maxD t d now = mockPoreAnalysis b2 m maxD t d now :=
  rfl

/-- C2: for magnification 37 (or indeed any magnification) with a file
present, the handler returns an `ok` analysis result; there is no
`UnsupportedMagnification` failure path in the code. -/
theorem magnification_37_returns_result (buf : List ℕ) (maxD t : ℝ)
    (d : ℕ → ℝ) (now : ℕ) :
    POST ⟨some buf, 37, maxD, t⟩ d now =
      PostResponse.ok (mockPoreAnalysis buf ((37 : ℤ) : ℝ) maxD t d now) :=
  rfl

/-- C6: the reported mode diameter is the diameter of a histogram bin of
maximal pdf, and among all bins attaining that maximal pdf it is the one
with the smallest diameter. -/
theorem mode_is_smallest_max_density_bin (b : List ℕ) (m maxD t : ℝ)
    (d : ℕ → ℝ) (now : ℕ) (hmax : 0 < maxD) :
    ∃ bin ∈ (mockPoreAnalysis b m maxD t d now).histogram_data,
      (mockPoreAnalysis b m maxD t d now).mode_diam_nm = bin.1 ∧
      (∀ other ∈ (mockPoreAnalysis b m maxD t d now).histogram_data,
        other.2 ≤ bin.2) ∧
      (∀ other ∈ (mockPoreAnalysis b m maxD t d now).histogram_data,
        other.2 = bin.2 → bin.1 ≤ other.1) := by
  obtain ⟨hk80, hle, hfirst⟩ :=
    argmaxUpto_spec (binPdf m maxD t d) 80 (by norm_num)
  refine ⟨(binDiameter maxD (argmaxUpto (binPdf m maxD t d) 80),
      binPdf m maxD t d (argmaxUpto (binPdf m maxD t d) 80)), ?_, ?_, ?_, ?_⟩
  · rw [mock_histogram_data]
    exact List.mem_map.mpr ⟨argmaxUpto (binPdf m maxD t d) 80,
      List.mem_range.mpr hk80, rfl⟩
  · rw [mock_mode_diam]
  · intro other hmem
    rw [mock_histogram_data] at hmem
    obtain ⟨i, hi, rfl⟩ := List.mem_map.mp hmem
    exact hle i (List.mem_range.mp hi)
  · intro other hmem heq
    rw [mock_histogram_data] at hmem
    obtain ⟨i, hi, rfl⟩ := List.mem_map.mp hmem
    have hki : argmaxUpto (binPdf m maxD t d) 80 ≤ i := by
      by_contra hgt
      push_neg at hgt
      exact absurd heq (ne_of_lt (hfirst i hgt))
    rcases Nat.eq_or_lt_of_le hki with hc | hc
    · rw [hc]
    · exact le_of_lt (binDiameter_strict_mono maxD hmax hc)

/-- C9: with a positive maximum diameter the histogram is strictly ordered
by diameter ascending. -/
theorem histogram_sorted_by_diameter (b : List ℕ) (m maxD t : ℝ) (d : ℕ → ℝ)
    (now : ℕ) (hmax : 0 < maxD) :
    (mockPoreAnalysis b m maxD t d now).histogram_data.Pairwise
      (fun x y => x.1 < y.1) := by
  rw [mock_histogram_data]
  rw [List.pairwise_map]
  exact (List.pairwise_lt_range 80).imp fun hij =>
    binDiameter_strict_mono maxD hmax hij

/-- C7: for draws in the range of `Math.random()` the returned pore
fraction lies in the closed unit interval. -/
theorem pore_fraction_in_unit_interval (b : List ℕ) (m maxD t : ℝ)
    (d : ℕ → ℝ) (now : ℕ) (hd : ValidDraws d) :
    0 ≤ (mockPoreAnalysis b m maxD t d now).pore_fraction ∧
      (mockPoreAnalysis b m maxD t d now).pore_fraction ≤ 1 := by
  obtain ⟨h0, h1⟩ := hd 81
  rw [mock_pore_fraction]
  constructor <;> nlinarith

/-- Witness for C7 at a concrete input. -/
theorem pore_fraction_in_unit_interval_witness :
    ValidDraws (fun _ => 0) ∧
      (0 ≤ (mockPoreAnalysis [] 100 80 1 (fun _ => 0) 0).pore_fraction ∧
        (mockPoreAnalysis [] 100 80 1 (fun _ => 0) 0).pore_fraction ≤ 1) :=
  ⟨fun _ => by norm_num,
    pore_fraction_in_unit_interval [] 100 80 1 (fun _ => 0) 0
      (fun _ => by norm_num)⟩

/-- C8: for draws in the range of `Math.random()` the returned pixel size
is strictly positive and is never the silent default 1. -/
theorem pixel_size_positive_never_one (b : List ℕ) (m maxD t : ℝ)
    (d : ℕ → ℝ) (now : ℕ) (hd : ValidDraws d) :
    0 < (mockPoreAnalysis b m maxD t d now).pixel_size ∧
      (mockPoreAnalysis b m maxD t d now).pixel_size ≠ 1 := by
  obtain ⟨h0, h1⟩ := hd 80
  rw [mock_pixel_size]
  constructor
  · nlinarith
  · have hlt : (0.1 : ℝ) + d 80 * 0.1 < 1 := by nlinarith
    exact ne_of_lt hlt

/-- Witness for C8 at a concrete input. -/
theorem pixel_size_positive_never_one_witness :
    ValidDraws (fun _ => 0) ∧
      (0 < (mockPoreAnalysis [] 200 80 1 (fun _ => 0) 0).pixel_size ∧
        (mockPoreAnalysis [] 200 80 1 (fun _ => 0) 0).pixel_size ≠ 1) :=
  ⟨fun _ => by norm_num,
    pixel_size_positive_never_one [] 200 80 1 (fun _ => 0) 0
      (fun _ => by norm_num)⟩

/-- Witness for C6 at a concrete input. -/
theorem mode_is_smallest_max_density_bin_witness :
    (0 : ℝ) < 80 ∧
      ∃ bin ∈ (mockPoreAnalysis [] 100 80 1 (fun _ => 0) 0).histogram_data,
        (mockPoreAnalysis [] 100 80 1 (fun _ => 0) 0).mode_diam_nm = bin.1 ∧
        (∀ other ∈ (mockPoreAnalysis [] 100 80 1 (fun _ => 0) 0).histogram_data,
          other.2 ≤ bin.2) ∧
        (∀ other ∈ (mockPoreAnalysis [] 100 80 1 (fun _ => 0) 0).histogram_data,
          other.2 = bin.2 → bin.1 ≤ other.1) :=
  ⟨by norm_num,
    mode_is_smallest_max_density_bin [] 100 80 1 (fun _ => 0) 0 (by norm_num)⟩

/-- Witness for C9 at a concrete input. -/
theorem histogram_sorted_by_diameter_witness :
    (0 : ℝ) < 80 ∧
      (mockPoreAnalysis [] 100 80 1 (fun _ => 0) 0).histogram_data.Pairwise
        (fun x y => x.1 < y.1) :=
  ⟨by norm_num,
    histogram_sorted_by_diameter [] 100 80 1 (fun _ => 0) 0 (by norm_num)⟩

/-- C1 counterevidence: two runs on the same image bytes, the same
parameters and the same timestamp, whose `Math.random()` streams are both
legitimate (all draws in `[0, 1)`) but differ, return different pore
fractions, so the analysis is not a function of the image and parameters
alone. -/
theorem identical_inputs_different_results :
    ValidDraws (fun _ => 0) ∧ ValidDraws (fun _ => (1 : ℝ) / 2) ∧
      (mockPoreAnalysis [] 100 80 1 (fun _ => 0) 0).pore_fraction ≠
        (mockPoreAnalysis [] 100 80 1 (fun _ => (1 : ℝ) / 2) 0).pore_fraction := by
  refine ⟨fun _ => by norm_num, fun _ => by norm_num, ?_⟩
  rw [mock_pore_fraction, mock_pore_fraction]
  norm_num

/-- C3 counterevidence: at magnification 100, maximum diameter 1/2,
threshold 1 and all draws 1/2, the discrete integral of the histogram
(sum of pdf times the bin spacing 1/2/80) is at most 1/2, hence not 1. -/
theorem histogram_integral_not_one :
    ((mockPoreAnalysis [] 100 (1 / 2) 1 (fun _ => (1 : ℝ) / 2) 0).histogram_data.map
        fun bin => bin.2 * (1 / 2 / 80)).sum ≤ 1 / 2 ∧
      ((mockPoreAnalysis [] 100 (1 / 2) 1 (fun _ => (1 : ℝ) / 2) 0).histogram_data.map
        fun bin => bin.2 * (1 / 2 / 80)).sum ≠ 1 := by
  have hb : ∀ x ∈ ((mockPoreAnalysis [] 100 (1 / 2) 1 (fun _ => (1 : ℝ) / 2)
      0).histogram_data.map fun bin => bin.2 * (1 / 2 / 80)), x ≤ (1 / 160 : ℝ) := by
    intro x hx
    rw [mock_histogram_data, List.map_map] at hx
    obtain ⟨i, _, rfl⟩ := List.mem_map.mp hx
    have hexp : Real.exp (-(((binDiameter (1 / 2) i - baseSize 100) /
        (baseSize 100 * 0.4)) ^ 2)) ≤ 1 :=
      Real.exp_le_one_iff.mpr (neg_nonpos.mpr (sq_nonneg _))
    have hpdf : binPdf 100 (1 / 2) 1 (fun _ => (1 : ℝ) / 2) i ≤ 1 := by
      unfold binPdf
      nlinarith [Real.exp_pos (-(((binDiameter (1 / 2) i - baseSize 100) /
        (baseSize 100 * 0.4)) ^ 2))]
    simp only [Function.comp]
    nlinarith [hpdf]
  have hsum := List.sum_le_card_nsmul
    ((mockPoreAnalysis [] 100 (1 / 2) 1 (fun _ => (1 : ℝ) / 2) 0).histogram_data.map
      fun bin => bin.2 * (1 / 2 / 80)) (1 / 160 : ℝ) hb
  have hlen : ((mockPoreAnalysis [] 100 (1 / 2) 1 (fun _ => (1 : ℝ) / 2)
      0).histogram_data.map fun bin => bin.2 * (1 / 2 / 80)).length = 80 := by
    rw [mock_histogram_data]
    simp
  rw [hlen, nsmul_eq_mul] at hsum
  have hhalf : ((mockPoreAnalysis [] 100 (1 / 2) 1 (fun _ => (1 : ℝ) / 2)
      0).histogram_data.map fun bin => bin.2 * (1 / 2 / 80)).sum ≤ (1 / 2 : ℝ) := by
    calc _ ≤ (80 : ℕ) * (1 / 160 : ℝ) := hsum
    _ = 1 / 2 := by norm_num
  exact ⟨hhalf, fun h => by rw [h] at hhalf; norm_num at hhalf⟩

/-- C4 counterevidence: with the same draw stream, the supported
magnifications 10 and 20 give the very same pixel size, so a larger
magnification does not give a strictly smaller pixel size. -/
theorem pixel_size_ignores_magnification :
    (mockPoreAnalysis [] 20 80 1 (fun _ => 0) 0).pixel_size =
      (mockPoreAnalysis [] 10 80 1 (fun _ => 0) 0).pixel_size ∧
    ¬ (mockPoreAnalysis [] 20 80 1 (fun _ => 0) 0).pixel_size <
        (mockPoreAnalysis [] 10 80 1 (fun _ => 0) 0).pixel_size := by
  refine ⟨rfl, ?_⟩
  rw [mock_pixel_size, mock_pixel_size]
  exact lt_irrefl _

/-- C5 counterevidence: on a uniform (blank) image with valid parameters
and the smallest possible draws, the analysis reports 500 pores, never
zero, and it has no empty-distribution outcome at all. -/
theorem blank_image_reports_500_pores :
    (mockPoreAnalysis (List.replicate 64 128) 100 80 1 (fun _ => 0)
      0).total_pores = 500 := by
  rw [mock_total_pores]
  have h : (500 : ℝ) + (fun _ => (0 : ℝ)) 82 * 1500 = ((500 : ℤ) : ℝ) := by
    norm_num
  rw [h, Int.floor_intCast]

end Poromet
